import Mathlib

/-!
Shallow embedding of the crate_compat incompatibility-registry model
(`src/lib.rs`): the `Target` and `RefType` variant types, the
`IncompatRecord` entity with its six query predicates, and the
`Display` renderings, together with theorems settling the specified
properties.

Versions and version ranges: the range evaluator is the external
semver collaborator, so a range is embedded as its textual form plus
its containment test (an arbitrary function), and the concrete ranges
of the static example records are modelled from the spec's contract.
-/

namespace CrateCompat

/-- Modelled from the spec: a concrete semantic version (the records and
scenarios only use plain `major.minor.patch` versions, no pre-release). -/
structure Version where
  major : Nat
  minor : Nat
  patch : Nat
deriving DecidableEq, Repr

/-- Modelled from the spec: the external version-range collaborator
(`semver::VersionReq`). A range carries its textual form (used only by
rendering) and a deterministic containment test. -/
structure VersionReq where
  repr : String
  reqMatches : Version → Bool

/-- `enum Target` of `src/lib.rs`: a named package with a version range,
or the (unnamed) toolchain with a version range. -/
inductive Target where
  | Crate (name : String) (req : VersionReq)
  | Rust (req : VersionReq)

/-- `enum RefType` of `src/lib.rs`: a typed resource locator. -/
inductive RefType where
  | Bug (url : String)
  | PullRequest (url : String)
  | Commit (url : String)

/-- `struct IncompatRecord` of `src/lib.rs`. -/
structure IncompatRecord where
  target : Target
  conflicts : Target
  reason : Option String
  references : Option (List RefType)

/-- `IncompatRecord::affects_crate` of `src/lib.rs`. -/
def IncompatRecord.affects_crate (self : IncompatRecord) (affected_crate : String) : Bool :=
  match self.target with
  | Target.Crate xcrate _ => xcrate == affected_crate
  | _ => false

/-- `IncompatRecord::affects` of `src/lib.rs`. -/
def IncompatRecord.affects (self : IncompatRecord) (affected_crate : String) (req : Version) : Bool :=
  match self.target with
  | Target.Crate xcrate crate_req => xcrate == affected_crate && crate_req.reqMatches req
  | _ => false

/-- `IncompatRecord::has_conflicts` of `src/lib.rs`. -/
def IncompatRecord.has_conflicts (self : IncompatRecord) (conflicting_crate : String) : Bool :=
  match self.conflicts with
  | Target.Crate xcrate _ => xcrate == conflicting_crate
  | _ => false

/-- `IncompatRecord::conflicts` of `src/lib.rs` (the record field of the
same name forces a different Lean name for the method). -/
def IncompatRecord.conflictsWith (self : IncompatRecord) (conflicting_crate : String) (req : Version) : Bool :=
  match self.conflicts with
  | Target.Crate xcrate crate_req => xcrate == conflicting_crate && crate_req.reqMatches req
  | _ => false

/-- `IncompatRecord::has_rust_conflicts` of `src/lib.rs`. -/
def IncompatRecord.has_rust_conflicts (self : IncompatRecord) : Bool :=
  match self.conflicts with
  | Target.Rust _ => true
  | _ => false

/-- `IncompatRecord::rust_conflicts` of `src/lib.rs`. -/
def IncompatRecord.rust_conflicts (self : IncompatRecord) (req : Version) : Bool :=
  match self.conflicts with
  | Target.Rust rust_req => rust_req.reqMatches req
  | _ => false

/-- `impl Display for Target` of `src/lib.rs`. -/
def Target.display : Target → String
  | Target.Rust rust_req => "rust(" ++ rust_req.repr ++ ")"
  | Target.Crate name req => "crate(" ++ name ++ " " ++ req.repr ++ ")"

/-- `impl Display for RefType` of `src/lib.rs`. -/
def RefType.display : RefType → String
  | RefType.Bug url => "Bug: " ++ url
  | RefType.PullRequest url => "Pull: " ++ url
  | RefType.Commit url => "Commit: " ++ url

/-- The `for reference in references` loop of `impl Display for
IncompatRecord`: one `"- {}\n"` write per reference. -/
def renderRefs : List RefType → String
  | [] => ""
  | r :: rs => "- " ++ r.display ++ "\n" ++ renderRefs rs

/-- `impl Display for IncompatRecord` of `src/lib.rs`: the sequence of
`write!` calls, concatenated. -/
def IncompatRecord.display (self : IncompatRecord) : String :=
  self.target.display ++ " with " ++ self.conflicts.display ++ "\n"
  ++ (match self.reason with
      | some reason => "- " ++ reason ++ "\n"
      | none => "")
  ++ (match self.references with
      | some references =>
        if references.length > 0 then "References:" ++ "\n" ++ renderRefs references else ""
      | none => "")

/-- Modelled from the spec: lexicographic order on plain concrete versions,
the containment order the external semver evaluator applies to the
comparators used by the static records. -/
def Version.ltv (a b : Version) : Bool :=
  a.major < b.major
    || (a.major == b.major
        && (a.minor < b.minor || (a.minor == b.minor && a.patch < b.patch)))

/-- Modelled from the spec: `a >= b` on plain concrete versions. -/
def Version.gev (a b : Version) : Bool :=
  !(Version.ltv a b)

/-- Modelled from the spec: the range `"< 1.0.7"`. -/
def req_lt_1_0_7 : VersionReq :=
  ⟨"< 1.0.7", fun v => Version.ltv v ⟨1, 0, 7⟩⟩

/-- Modelled from the spec: the range `">= 1.0.3"`. -/
def req_ge_1_0_3 : VersionReq :=
  ⟨">= 1.0.3", fun v => Version.gev v ⟨1, 0, 3⟩⟩

/-- Modelled from the spec: the range `"< 1.31"`. -/
def req_lt_1_31 : VersionReq :=
  ⟨"< 1.31", fun v => Version.ltv v ⟨1, 31, 0⟩⟩

/-- The static record `FAILURE_DERIVE` of `src/lib.rs`. -/
def FAILURE_DERIVE : IncompatRecord where
  target := Target.Crate "failure_derive" req_lt_1_0_7
  conflicts := Target.Crate "quote" req_ge_1_0_3
  reason := some "Broken by rename of quote::_rt to quote::_private in 1.0.3"
  references := some
    [ RefType.Bug "https://github.com/withoutboats/failure_derive/issues/13",
      RefType.Bug "https://github.com/rust-lang-nursery/failure/issues/342",
      RefType.PullRequest "https://github.com/rust-lang-nursery/failure/pull/343",
      RefType.PullRequest "https://github.com/rust-lang-nursery/failure/pull/345",
      RefType.Commit "https://github.com/dtolnay/quote/commit/41543890aa76f4f8046fffac536b9445275aab26" ]

/-- The static record `FAILURE_BADRUST` of `src/lib.rs`. -/
def FAILURE_BADRUST : IncompatRecord where
  target := Target.Crate "failure_derive" req_lt_1_0_7
  conflicts := Target.Rust req_lt_1_31
  reason := some "Documented minimum supported rust"
  references := some
    [ RefType.Commit "https://github.com/rust-lang-nursery/failure/commit/996f919f1e1741b08673b15f893221694097cc9f" ]

/-- Joins a list of lines, terminating every line (including the last)
with a newline character. -/
def unlines : List String → String
  | [] => ""
  | a :: l => a ++ "\n" ++ unlines l

/-- The target line text exactly as the spec's rendering section words it:
a Crate target renders as `crate(<name> <range>)`, a Rust target as
`rust(<range>)`. -/
def specTargetText : Target → String
  | Target.Crate name req => "crate(" ++ name ++ " " ++ req.repr ++ ")"
  | Target.Rust req => "rust(" ++ req.repr ++ ")"

/-- A reference line body exactly as the spec words it: `<Kind>: <locator>`
with kind labels `Bug`, `Pull`, `Commit`. -/
def specRefText : RefType → String
  | RefType.Bug url => "Bug: " ++ url
  | RefType.PullRequest url => "Pull: " ++ url
  | RefType.Commit url => "Commit: " ++ url

/-- The record rendering, line by line, as claim C1 states it: first line
`<target> with <conflicts>`, then `- <reason>` iff a reason is present,
then iff references are present and non-empty a `References:` header
followed by one `<Kind>: <locator>` line per reference in order. -/
def claimedRecordLines (r : IncompatRecord) : List String :=
  [specTargetText r.target ++ " with " ++ specTargetText r.conflicts]
  ++ (match r.reason with
      | some reason => ["- " ++ reason]
      | none => [])
  ++ (match r.references with
      | some refs =>
        if refs.length > 0 then "References:" :: refs.map specRefText else []
      | none => [])

/-- The record rendering, line by line, with the reference-line format
amended to `- <Kind>: <locator>` (the only change the code forces on
claim C1). -/
def amendedRecordLines (r : IncompatRecord) : List String :=
  [specTargetText r.target ++ " with " ++ specTargetText r.conflicts]
  ++ (match r.reason with
      | some reason => ["- " ++ reason]
      | none => [])
  ++ (match r.references with
      | some refs =>
        if refs.length > 0 then "References:" :: refs.map (fun x => "- " ++ specRefText x) else []
      | none => [])

/-- A minimal record with a single reference, used to exhibit the
reference-line format. -/
def oneRefRecord : IncompatRecord where
  target := Target.Crate "a" ⟨"< 1.0.0", fun _ => false⟩
  conflicts := Target.Rust ⟨"< 1.0", fun _ => false⟩
  reason := none
  references := some [RefType.Bug "u"]

end CrateCompat

namespace CrateCompat

theorem unlines_append (xs ys : List String) :
    unlines (xs ++ ys) = unlines xs ++ unlines ys := by
  induction xs with
  | nil => simp [unlines]
  | cons a l ih => simp [unlines, ih, String.append_assoc]

theorem renderRefs_eq_unlines (l : List RefType) :
    renderRefs l = unlines (l.map (fun x => "- " ++ RefType.display x)) := by
  induction l with
  | nil => simp [renderRefs, unlines]
  | cons a l ih => simp [renderRefs, unlines, ih, String.append_assoc]

theorem specRefText_eq_display (x : RefType) : specRefText x = RefType.display x := by
  cases x <;> rfl

theorem specTargetText_eq_display (t : Target) : specTargetText t = Target.display t := by
  cases t <;> rfl

/-- C1 (counterexample): at the concrete record `oneRefRecord`, the rendered
text is not the line-by-line text the claim states, because the code
prefixes every reference line with `- `. -/
theorem C1_render_counterexample :
    oneRefRecord.display ≠ unlines (claimedRecordLines oneRefRecord) := by
  decide

/-- C1 (amended): for every IncompatRecord the rendered diagnostic text
consists, line by line and with nothing after the last line's terminator,
of: the `<target> with <conflicts>` line; a `- <reason>` line iff reason is
present; and iff references are present and non-empty a `References:`
header followed by one `- <Kind>: <locator>` line per reference in
original order, with kind labels Bug, Pull, Commit. -/
theorem C1_render_lines (r : IncompatRecord) :
    r.display = unlines (amendedRecordLines r) := by
  rcases r with ⟨t, c, reason, refs⟩
  simp only [IncompatRecord.display, amendedRecordLines, unlines_append,
    specTargetText_eq_display]
  cases reason <;> rcases refs with _ | ⟨_ | ⟨x, xs⟩⟩ <;>
    simp [unlines, unlines_append, renderRefs_eq_unlines, specRefText_eq_display,
      String.append_assoc]

/-- C8: a record whose references field is absent renders exactly as the
otherwise-identical record whose references field is present but empty. -/
theorem C8_refs_none_eq_empty (t c : Target) (reason : Option String) :
    (IncompatRecord.mk t c reason none).display
      = (IncompatRecord.mk t c reason (some [])).display := by
  simp [IncompatRecord.display]

/-- C2: `affects n v` is true iff the target is `Crate name range` with
`name = n` (exact string equality) and `v` contained in `range`; in
particular it is false for every Rust target and every name mismatch. -/
theorem C2_affects_iff (r : IncompatRecord) (n : String) (v : Version) :
    r.affects n v = true
      ↔ ∃ name req, r.target = Target.Crate name req ∧ name = n ∧ req.reqMatches v = true := by
  rcases r with ⟨t, c, reason, refs⟩
  cases t <;> simp [IncompatRecord.affects]
  aesop

/-- C2 (witness): the iff applied at the `FAILURE_DERIVE` record with name
`failure_derive` and version 1.0.3. -/
theorem C2_affects_iff_witness :
    ∃ name req, FAILURE_DERIVE.target = Target.Crate name req
      ∧ name = "failure_derive" ∧ req.reqMatches ⟨1, 0, 3⟩ = true :=
  (C2_affects_iff FAILURE_DERIVE "failure_derive" ⟨1, 0, 3⟩).mp (by decide)

/-- C3: `affects_crate n` is true iff the target is a Crate variant whose
name equals `n` exactly, and the result is independent of the stored
version range. -/
theorem C3_affects_crate_iff :
    (∀ (r : IncompatRecord) (n : String),
      r.affects_crate n = true ↔ ∃ name req, r.target = Target.Crate name req ∧ name = n)
    ∧ (∀ (name : String) (req req' : VersionReq) (c : Target) (reason : Option String)
        (refs : Option (List RefType)) (n : String),
      (IncompatRecord.mk (Target.Crate name req) c reason refs).affects_crate n
        = (IncompatRecord.mk (Target.Crate name req') c reason refs).affects_crate n) := by
  constructor
  · intro r n
    rcases r with ⟨t, c, reason, refs⟩
    cases t <;> simp [IncompatRecord.affects_crate]
  · intro name req req' c reason refs n
    simp [IncompatRecord.affects_crate]

/-- C3 (witness): the iff applied at `FAILURE_BADRUST` with the name
`failure_derive`, and the range-independence instance at its two ranges. -/
theorem C3_affects_crate_iff_witness :
    (∃ name req, FAILURE_BADRUST.target = Target.Crate name req ∧ name = "failure_derive")
    ∧ (IncompatRecord.mk (Target.Crate "x" req_lt_1_0_7) (Target.Rust req_lt_1_31) none none).affects_crate "x"
        = (IncompatRecord.mk (Target.Crate "x" req_ge_1_0_3) (Target.Rust req_lt_1_31) none none).affects_crate "x" :=
  ⟨(C3_affects_crate_iff.1 FAILURE_BADRUST "failure_derive").mp (by decide),
    C3_affects_crate_iff.2 "x" req_lt_1_0_7 req_ge_1_0_3 (Target.Rust req_lt_1_31) none none "x"⟩

/-- C4: `has_conflicts` and the `conflicts` method are exactly the mirror of
`affects_crate`/`affects` read against the conflicts field (swapping the two
sides of a record turns one family into the other), and both are
independent of the target field. -/
theorem C4_conflicts_mirror :
    (∀ (t c : Target) (reason : Option String) (refs : Option (List RefType)) (n : String),
      (IncompatRecord.mk t c reason refs).has_conflicts n
        = (IncompatRecord.mk c t reason refs).affects_crate n)
    ∧ (∀ (t c : Target) (reason : Option String) (refs : Option (List RefType))
        (n : String) (v : Version),
      (IncompatRecord.mk t c reason refs).conflictsWith n v
        = (IncompatRecord.mk c t reason refs).affects n v)
    ∧ (∀ (t t' c : Target) (reason : Option String) (refs : Option (List RefType)) (n : String),
      (IncompatRecord.mk t c reason refs).has_conflicts n
        = (IncompatRecord.mk t' c reason refs).has_conflicts n)
    ∧ (∀ (t t' c : Target) (reason : Option String) (refs : Option (List RefType))
        (n : String) (v : Version),
      (IncompatRecord.mk t c reason refs).conflictsWith n v
        = (IncompatRecord.mk t' c reason refs).conflictsWith n v) := by
  refine ⟨fun t c reason refs n => rfl, fun t c reason refs n v => rfl,
    fun t t' c reason refs n => rfl, fun t t' c reason refs n v => rfl⟩

/-- C5: `rust_conflicts v` is true iff the conflicts field is `Rust range`
with `v` contained in `range`; it is false for every Crate conflicts. -/
theorem C5_rust_conflicts_iff (r : IncompatRecord) (v : Version) :
    r.rust_conflicts v = true
      ↔ ∃ req, r.conflicts = Target.Rust req ∧ req.reqMatches v = true := by
  rcases r with ⟨t, c, reason, refs⟩
  cases c <;> simp [IncompatRecord.rust_conflicts]

/-- C5 (witness): the iff applied at `FAILURE_BADRUST` with version 1.30.0. -/
theorem C5_rust_conflicts_iff_witness :
    ∃ req, FAILURE_BADRUST.conflicts = Target.Rust req ∧ req.reqMatches ⟨1, 30, 0⟩ = true :=
  (C5_rust_conflicts_iff FAILURE_BADRUST ⟨1, 30, 0⟩).mp (by decide)

/-- C6: `has_rust_conflicts` is true iff the conflicts field is a Rust
variant (for any stored range), and the result is independent of the
reason and references fields. -/
theorem C6_has_rust_conflicts_iff :
    (∀ r : IncompatRecord, r.has_rust_conflicts = true ↔ ∃ req, r.conflicts = Target.Rust req)
    ∧ (∀ (t c : Target) (reason reason' : Option String)
        (refs refs' : Option (List RefType)),
      (IncompatRecord.mk t c reason refs).has_rust_conflicts
        = (IncompatRecord.mk t c reason' refs').has_rust_conflicts) := by
  constructor
  · intro r
    rcases r with ⟨t, c, reason, refs⟩
    cases c <;> simp [IncompatRecord.has_rust_conflicts]
  · intro t c reason reason' refs refs'
    rfl

/-- C6 (witness): the iff applied at `FAILURE_BADRUST`, whose conflicts
field is `Rust (< 1.31)`. -/
theorem C6_has_rust_conflicts_iff_witness :
    ∃ req, FAILURE_BADRUST.conflicts = Target.Rust req :=
  (C6_has_rust_conflicts_iff.1 FAILURE_BADRUST).mp (by decide)

/-- C7: the concrete `FAILURE_DERIVE` record, with target
`Crate "failure_derive" (< 1.0.7)` and conflicts `Crate "quote" (>= 1.0.3)`,
affects failure_derive 1.0.3 but not 1.0.7, conflicts with quote 1.0.3 but
not 1.0.2, and has no rust conflicts. -/
theorem C7_failure_derive_scenario :
    FAILURE_DERIVE.affects "failure_derive" ⟨1, 0, 3⟩ = true
    ∧ FAILURE_DERIVE.affects "failure_derive" ⟨1, 0, 7⟩ = false
    ∧ FAILURE_DERIVE.conflictsWith "quote" ⟨1, 0, 3⟩ = true
    ∧ FAILURE_DERIVE.conflictsWith "quote" ⟨1, 0, 2⟩ = false
    ∧ FAILURE_DERIVE.has_rust_conflicts = false := by
  decide

/-- C9: each version-precise predicate implies its coarse existence check:
`affects` implies `affects_crate`, the `conflicts` method implies
`has_conflicts`, and `rust_conflicts` implies `has_rust_conflicts`. -/
theorem C9_precise_implies_coarse (r : IncompatRecord) (n : String) (v : Version) :
    (r.affects n v = true → r.affects_crate n = true)
    ∧ (r.conflictsWith n v = true → r.has_conflicts n = true)
    ∧ (r.rust_conflicts v = true → r.has_rust_conflicts = true) := by
  rcases r with ⟨t, c, reason, refs⟩
  refine ⟨?_, ?_, ?_⟩
  · cases t <;> simp [IncompatRecord.affects, IncompatRecord.affects_crate]
    intro h _
    exact h
  · cases c <;> simp [IncompatRecord.conflictsWith, IncompatRecord.has_conflicts]
    intro h _
    exact h
  · cases c <;> simp [IncompatRecord.rust_conflicts, IncompatRecord.has_rust_conflicts]

/-- C9 (witness): the three implications applied at the static records with
concrete names and versions that satisfy the hypotheses. -/
theorem C9_precise_implies_coarse_witness :
    FAILURE_DERIVE.affects_crate "failure_derive" = true
    ∧ FAILURE_DERIVE.has_conflicts "quote" = true
    ∧ FAILURE_BADRUST.has_rust_conflicts = true :=
  ⟨(C9_precise_implies_coarse FAILURE_DERIVE "failure_derive" ⟨1, 0, 3⟩).1 (by decide),
    (C9_precise_implies_coarse FAILURE_DERIVE "quote" ⟨1, 0, 3⟩).2.1 (by decide),
    (C9_precise_implies_coarse FAILURE_BADRUST "quote" ⟨1, 30, 0⟩).2.2 (by decide)⟩

/-- C10: the crate-side and toolchain-side conflict checks are mutually
exclusive: `has_rust_conflicts` true forces `has_conflicts n` false for
every name, and `has_conflicts n` true for some name forces
`has_rust_conflicts` false. -/
theorem C10_mutually_exclusive (r : IncompatRecord) (n : String) :
    (r.has_rust_conflicts = true → r.has_conflicts n = false)
    ∧ (r.has_conflicts n = true → r.has_rust_conflicts = false) := by
  rcases r with ⟨t, c, reason, refs⟩
  cases c <;> simp [IncompatRecord.has_rust_conflicts, IncompatRecord.has_conflicts]

/-- C10 (witness): the exclusivity applied at the two static records. -/
theorem C10_mutually_exclusive_witness :
    FAILURE_BADRUST.has_conflicts "quote" = false
    ∧ FAILURE_DERIVE.has_rust_conflicts = false :=
  ⟨(C10_mutually_exclusive FAILURE_BADRUST "quote").1 (by decide),
    (C10_mutually_exclusive FAILURE_DERIVE "quote").2 (by decide)⟩

end CrateCompat
